import Mathlib

/-!
Shallow embedding of the air-quality-app repository's core logic, for
checking the natural-language specification against the code.

Sources embedded (paths relative to the repository root):
- `src/unnamed/part_005` — the v1.1.0 variant: per-session transcription
  gate (`activeTranscriptions` flag) around `checkAirQuality`.
- `src/unnamed/part_003` — the variant with the full location fallback
  chain: `checkAirQuality` (device tier with validation), then
  `getApproximateLocation` (IP tier), then the London static default.
- `src/src/index.ts` (the v4.2.3 text) — session cache policy
  (`handleAirQualityRequest`), `onLocation` handler, `fetchAQIData`,
  `getQualityLevel`, `AQI_LEVELS`.
- `src/src/types/types.ts` — the second `AQI_LEVELS` table.
- `src/src - Copy/index.ts` — the variant whose `onLocation` handler both
  stores the coordinate and performs the AQI lookup.
- `src/src/services/airQualityService.ts` — `getNearestAQIStation`.

JavaScript numbers are modelled as `JSNum` (`nan` or a rational value);
a possibly-absent (`undefined`/`null`) field is `Option JSNum`.
Timestamps are naturals (epoch milliseconds).  Network calls are inputs:
a fallible call's outcome is passed in as an `Except`.
-/

/-- A JavaScript number: `NaN` or an actual (rational) value. -/
inductive JSNum where
  | nan : JSNum
  | num (q : ℚ) : JSNum
deriving DecidableEq, Repr

/-- JavaScript truthiness of a possibly-absent number: `undefined`, `null`,
`NaN` and `0` are falsy, every other number is truthy. -/
def jsTruthy : Option JSNum → Bool
  | some (.num q) => decide (q ≠ 0)
  | _ => false

/-- The numeric value of a possibly-absent JS number (junk `0` for
`NaN`/absent; only used behind truthiness guards). -/
def jsVal : Option JSNum → ℚ
  | some (.num q) => q
  | _ => 0

/-- `Math.abs` of a possibly-absent JS number (junk `0` for `NaN`/absent;
only used behind truthiness guards, matching the source's short-circuit). -/
def jsAbs : Option JSNum → ℚ
  | some (.num q) => |q|
  | _ => 0

/-! ## Voice-trigger gate (`src/unnamed/part_005`)

`onSession` sets `activeTranscriptions` to `true`; the transcription
handler returns at once when the flag is `false`, otherwise on a
recognized command it sets the flag to `false`, runs `checkAirQuality`,
and in `.finally` sets the flag back to `true`.  An event is an incoming
transcription (already classified as recognized or not) or the completion
of the in-flight `checkAirQuality` cycle (success or failure both run the
`.finally`).  Timestamps are carried on events only so that claims about
time windows can be stated; the source consults no clock here. -/

/-- An event seen by the part_005 transcription gate. -/
inductive GateEvent where
  | utterance (recognized : Bool) (time : ℕ) : GateEvent
  | complete (time : ℕ) : GateEvent
deriving DecidableEq, Repr

/-- One step of the part_005 gate: given the `activeTranscriptions` flag,
returns the new flag and whether a new `checkAirQuality` cycle started. -/
def gateStep (active : Bool) : GateEvent → Bool × Bool
  | .utterance recognized _ =>
      if active && recognized then (false, true) else (active, false)
  | .complete _ => (true, false)

/-- Run the part_005 gate over a list of events: final flag and how many
`checkAirQuality` cycles were started. -/
def gateRun (active : Bool) : List GateEvent → Bool × ℕ
  | [] => (active, 0)
  | e :: es =>
      let s := gateStep active e
      let r := gateRun s.1 es
      (r.1, (if s.2 then 1 else 0) + r.2)

/-- The spec's cooldown property for a window of `w` ms, instantiated on
the minimal duplicate-transcription trace: a recognized utterance starts a
cycle, the cycle completes at `tDone`, and a duplicate recognized
utterance arrives at `tU` within the window; the duplicate must be
absorbed, so exactly one cycle starts in total. -/
def cooldownAbsorbs (w : ℕ) : Prop :=
  ∀ tDone tU : ℕ, tU < tDone + w →
    (gateRun true
      [GateEvent.utterance true 0, GateEvent.complete tDone,
       GateEvent.utterance true tU]).2 = 1

/-! ## Location resolver (`src/unnamed/part_003`)

`checkAirQuality` races `session.getUserLocation()` against a 15 s
timeout, validates the result, and on any failure falls into its `catch`,
which tries `getApproximateLocation()` (IP geolocation, itself returning
the London coordinate when the provider fails or returns falsy fields)
and, should that path throw, uses London directly.  The outcomes of the
two network tiers are inputs (`Except` values); `try`/`catch` is embedded
by matching on the `Except`. -/

/-- What the device tier produced: the raw location object of a resolved
`getUserLocation()` call (fields possibly absent or `NaN`). -/
structure DeviceLocation where
  latitude : Option JSNum := none
  longitude : Option JSNum := none
deriving DecidableEq, Repr

/-- Parsed body of the IP-geolocation provider's response. -/
structure IPResponse where
  latitude : Option JSNum := none
  longitude : Option JSNum := none
deriving DecidableEq, Repr

/-- The hard-coded London fallback coordinate of part_003. -/
def londonFallback : ℚ × ℚ := (51.5074, -0.1278)

/-- The part_003 validation of a device location
(`!location?.latitude || !location?.longitude ||
Math.abs(latitude) > 90 || Math.abs(longitude) > 180` throws):
valid iff both axes are truthy numbers within range. -/
def isValidLocation (loc : DeviceLocation) : Bool :=
  jsTruthy loc.latitude && jsTruthy loc.longitude &&
  decide (jsAbs loc.latitude ≤ 90) && decide (jsAbs loc.longitude ≤ 180)

/-- `getApproximateLocation` of part_003: on a provider response with
truthy latitude and longitude, use them; on falsy fields or a provider
error (timeout, network failure), fall through to the London coordinate.
The function catches its own errors and never throws. -/
def getApproximateLocation (ip : Except String IPResponse) : ℚ × ℚ :=
  match ip with
  | .ok r =>
      if jsTruthy r.latitude && jsTruthy r.longitude then
        (jsVal r.latitude, jsVal r.longitude)
      else londonFallback
  | .error _ => londonFallback

/-- The device tier of part_003's `checkAirQuality` `try` block: a failed
or timed-out `getUserLocation()` propagates its error; a resolved but
invalid location throws `Invalid location`. -/
def deviceTier (device : Except String DeviceLocation) :
    Except String (ℚ × ℚ) :=
  match device with
  | .error e => .error e
  | .ok loc =>
      if isValidLocation loc then
        .ok (jsVal loc.latitude, jsVal loc.longitude)
      else .error "Invalid location"

/-- `try`/`catch`: run `x`; on an error, run the handler on it. -/
def tryCatchE (x : Except String (ℚ × ℚ))
    (handler : String → Except String (ℚ × ℚ)) : Except String (ℚ × ℚ) :=
  match x with
  | .ok a => .ok a
  | .error e => handler e

/-- The coordinate part_003's `checkAirQuality` ends up using: the device
tier inside the outer `try`; its `catch` runs the IP tier inside an inner
`try` whose own `catch` is the London coordinate.  (The subsequent
reverse-geocoding and AQI fetch never feed back into the choice of
coordinate.) -/
def checkAirQualityResolve (device : Except String DeviceLocation)
    (ip : Except String IPResponse) : Except String (ℚ × ℚ) :=
  tryCatchE (deviceTier device) fun _ =>
    tryCatchE (.ok (getApproximateLocation ip)) fun _ => .ok londonFallback

/-- The device tier failed: the call errored/timed out, or the returned
location fails the part_003 validation. -/
def deviceTierFails : Except String DeviceLocation → Prop
  | .error _ => True
  | .ok loc => isValidLocation loc = false

/-- The IP tier failed: the call errored/timed out, or the response lacks
truthy latitude/longitude fields. -/
def ipTierFails : Except String IPResponse → Prop
  | .error _ => True
  | .ok r => (jsTruthy r.latitude && jsTruthy r.longitude) = false

/-- A coordinate the specification's Coordinate Validator must reject:
an axis out of range, an axis `NaN` or absent, or the pair `(0,0)`. -/
def badCoordinate (loc : DeviceLocation) : Prop :=
  (∃ q : ℚ, loc.latitude = some (.num q) ∧ 90 < |q|) ∨
  (∃ q : ℚ, loc.longitude = some (.num q) ∧ 180 < |q|) ∨
  loc.latitude = some .nan ∨ loc.longitude = some .nan ∨
  loc.latitude = none ∨ loc.longitude = none ∨
  (loc.latitude = some (.num 0) ∧ loc.longitude = some (.num 0))

/-! ## Severity tables and classifier (`src/src/index.ts` v4.2.3,
`src/src/types/types.ts`)

`thresholdMax` is modelled as `Option ℕ`: `some v` is a finite threshold,
`none` stands for the source's `Infinity`. -/

/-- One row of a severity table (`{max, label, emoji, advice}`). -/
structure AQILevel where
  max : Option ℕ
  label : String
  emoji : String
  advice : String
deriving DecidableEq, Repr

/-- `aqi <= l.max` on JS numbers: every natural is `<= Infinity`. -/
def aqiLE (aqi : ℕ) : Option ℕ → Bool
  | none => true
  | some v => decide (aqi ≤ v)

/-- The `AQI_LEVELS` table of `src/src/index.ts` (last `max` is
`Infinity`). -/
def AQI_LEVELS : List AQILevel :=
  [ { max := some 50, label := "Good", emoji := "😊",
      advice := "Perfect for outdoor activities!" },
    { max := some 100, label := "Moderate", emoji := "😐",
      advice := "Acceptable air quality" },
    { max := some 150, label := "Unhealthy for Sensitive Groups",
      emoji := "😷", advice := "Reduce prolonged exertion" },
    { max := some 200, label := "Unhealthy", emoji := "😨",
      advice := "Wear a mask outdoors" },
    { max := some 300, label := "Very Unhealthy", emoji := "⚠️",
      advice := "Limit outdoor exposure" },
    { max := none, label := "Hazardous", emoji := "☢️",
      advice := "Stay indoors with windows closed" } ]

/-- The `AQI_LEVELS` table of `src/src/types/types.ts` (last `max` is the
finite `500`). -/
def AQI_LEVELS_types : List AQILevel :=
  [ { max := some 50, label := "Good", emoji := "😊",
      advice := "Perfect for outdoor activities!" },
    { max := some 100, label := "Moderate", emoji := "😐",
      advice := "Unusually sensitive people should reduce exertion" },
    { max := some 150, label := "Unhealthy for Sensitive", emoji := "😷",
      advice := "Sensitive groups should limit outdoor exertion" },
    { max := some 200, label := "Unhealthy", emoji := "😨",
      advice := "Everyone should limit outdoor exertion" },
    { max := some 300, label := "Very Unhealthy", emoji := "🤢",
      advice := "Avoid outdoor activities" },
    { max := some 500, label := "Hazardous", emoji := "☠️",
      advice := "Stay indoors with windows closed" } ]

/-- `table[table.length - 1]` (the tables are non-empty; the default is
never reached). -/
def lastLevel (table : List AQILevel) : AQILevel :=
  table.getLastD { max := some 0, label := "", emoji := "", advice := "" }

/-- `getQualityLevel` of `src/src/index.ts`
(`AQI_LEVELS.find(l => aqi <= l.max) || AQI_LEVELS[AQI_LEVELS.length-1]`). -/
def getQualityLevel (aqi : ℕ) : AQILevel :=
  (AQI_LEVELS.find? fun l => aqiLE aqi l.max).getD (lastLevel AQI_LEVELS)

/-- The identical classifier expression of `src/src - Copy/index.ts`
over the `types.ts` table. -/
def getQualityLevelTypes (aqi : ℕ) : AQILevel :=
  (AQI_LEVELS_types.find? fun l => aqiLE aqi l.max).getD
    (lastLevel AQI_LEVELS_types)

/-- Modelled from the spec's words (§4.5): scan the table in order and
return the first entry whose `thresholdMax ≥ index`, or `none`. -/
def firstGE (aqi : ℕ) : List AQILevel → Option AQILevel
  | [] => none
  | l :: ls => if aqiLE aqi l.max then some l else firstGE aqi ls

/-- Modelled from the spec's words (§4.5): the first entry whose
`thresholdMax ≥ index`; if none matches, the last entry. -/
def classifySpec (aqi : ℕ) (table : List AQILevel) : AQILevel :=
  (firstGE aqi table).getD (lastLevel table)

/-- Ascending strict order of the `max` column (`Infinity` greater than
every finite threshold). -/
def maxLT : Option ℕ → Option ℕ → Bool
  | some a, some b => decide (a < b)
  | some _, none => true
  | none, _ => false

/-- The `max` column of a table is strictly ascending. -/
def tableSorted : List AQILevel → Bool
  | [] => true
  | [_] => true
  | a :: b :: t => maxLT a.max b.max && tableSorted (b :: t)

/-! ## v4.2.3 session state, cache policy, handlers (`src/src/index.ts`) -/

/-- The station record `fetchAQIData` returns (`AQIStation`): the raw JS
`aqi` number and the station name/coordinates. -/
structure AQIStation where
  aqi : JSNum
  name : String
  geo : ℚ × ℚ
deriving DecidableEq, Repr

/-- A stored session location (`SessionLocation`): the values of the
push's `lat`/`lng` fields plus the receipt timestamp. -/
structure SessionLocation where
  lat : JSNum
  lon : JSNum
  timestamp : ℕ
deriving DecidableEq, Repr

/-- Per-session state (`SessionData`). -/
structure SessionData where
  userId : String
  location : Option SessionLocation := none
  lastAQI : Option (AQIStation × ℕ) := none
deriving DecidableEq, Repr

/-- `LOCATION_MAX_AGE_MS` of v4.2.3. -/
def LOCATION_MAX_AGE_MS : ℕ := 30000

/-- `AQI_REFRESH_INTERVAL_MS` of v4.2.3 (15 minutes). -/
def AQI_REFRESH_INTERVAL_MS : ℕ := 15 * 60 * 1000

/-- `RECENT_REQUEST_THRESHOLD_MS` of v4.2.3 (2 minutes). -/
def RECENT_REQUEST_THRESHOLD_MS : ℕ := 2 * 60 * 1000

/-- What `handleAirQualityRequest` hands to the presenter: a `showResult`
call with its freshness annotation and station data, or the
`Service unavailable` error wall of its `catch`. -/
inductive RequestOutcome where
  | shown (freshness : String) (data : AQIStation) : RequestOutcome
  | serviceUnavailable : RequestOutcome
deriving DecidableEq, Repr

/-- The fetch branch of `handleAirQualityRequest`: on success store the
station with the request timestamp and present it; on failure the `catch`
presents the error wall and the state is left as it was. -/
def fetchAndStore (sd : SessionData) (now : ℕ)
    (fetch : Except String AQIStation) : SessionData × RequestOutcome :=
  match fetch with
  | .ok st => ({ sd with lastAQI := some (st, now) },
               .shown "Current air quality" st)
  | .error _ => (sd, .serviceUnavailable)

/-- `handleAirQualityRequest` of v4.2.3, as a function of the session
state, the request time (`Date.now()`), and the outcome the AQI fetch
would have (`fetch`, consulted only when a fetch is performed).  The
coordinate selection (`getCurrentCoordinates`) and the default-location
display note are elided: they never affect the cache decision or the
stored state.  Cache ages are computed with `now ≥` the stored timestamp
(timestamps are produced by earlier `Date.now()` calls). -/
def handleAirQualityRequest (sd : SessionData) (now : ℕ)
    (fetch : Except String AQIStation) : SessionData × RequestOutcome :=
  match sd.lastAQI with
  | some (st, ts) =>
      let ageMs := now - ts
      if ageMs ≤ RECENT_REQUEST_THRESHOLD_MS then
        (sd, .shown (s!"Same as {ageMs / 1000}s ago") st)
      else if ageMs ≤ AQI_REFRESH_INTERVAL_MS then
        (sd, .shown (s!"{ageMs / 60000}m old data") st)
      else fetchAndStore sd now fetch
  | none => fetchAndStore sd now fetch

/-- A location push as delivered to either `onLocation` handler; the
handlers read different subsets of the keys (`lat`/`lng` in v4.2.3,
`lat`/`lon`/`latitude`/`longitude` in the Copy variant). -/
structure LocationUpdate where
  lat : Option JSNum := none
  lng : Option JSNum := none
  lon : Option JSNum := none
  latitude : Option JSNum := none
  longitude : Option JSNum := none
deriving DecidableEq, Repr

/-- The v4.2.3 `onLocation` handler: a push without truthy `lat` and
`lng` keys is discarded (`Invalid location received`); otherwise only the
session's stored location is replaced (with the receipt time).  The
handler performs no lookup, so the paired flag — whether the handler
started a lookup cycle — is `false` on every path. -/
def onLocationV423 (sd : SessionData) (now : ℕ) (loc : LocationUpdate) :
    SessionData × Bool :=
  if jsTruthy loc.lat && jsTruthy loc.lng then
    let stored : SessionLocation :=
      { lat := (loc.lat).getD (.num 0), lon := (loc.lng).getD (.num 0),
        timestamp := now }
    ({ sd with location := some stored }, false)
  else (sd, false)

/-- `getCurrentCoordinates` of v4.2.3: the stored session location while
it is at most `LOCATION_MAX_AGE_MS` old, otherwise the configured
default.  `tpaConfig.defaultLocation` comes from `tpa_config.json`, which
is not among the sources, so the default is a parameter; the stored
axes are truthy numbers whenever `onLocation` stored them, so reading
them with `jsVal` is exact. -/
def getCurrentCoordinates (sd : SessionData) (currentTime : ℕ)
    (defaultLocation : ℚ × ℚ) : ℚ × ℚ :=
  match sd.location with
  | some loc =>
      if currentTime - loc.timestamp ≤ LOCATION_MAX_AGE_MS then
        (jsVal (some loc.lat), jsVal (some loc.lon))
      else defaultLocation
  | none => defaultLocation

/-- Session state bolted onto the host session object by the Copy variant
(`session.location`, `session.lastLocationUpdate`). -/
structure CopySession where
  location : Option SessionLocation := none
  lastLocationUpdate : Option ℕ := none
deriving DecidableEq, Repr

/-- The `src/src - Copy/index.ts` `onLocation` handler: normalize
`coords.lat ?? coords.latitude` and `coords.lon ?? coords.longitude`
(nullish coalescing); if either is `undefined` the thrown error is caught
and nothing changes; otherwise the coordinate is stored on the session
and the handler itself runs the AQI lookup (`getNearestAQIStation` plus
the result wall).  Returns the new session state and whether a lookup was
performed; the stored coordinate survives even when the fetch fails. -/
def onLocationCopy (s : CopySession) (now : ℕ) (update : LocationUpdate) :
    CopySession × Bool :=
  let lat := (update.lat).orElse fun _ => update.latitude
  let lon := (update.lon).orElse fun _ => update.longitude
  match lat, lon with
  | some la, some lo =>
      ({ location := some { lat := la, lon := lo, timestamp := now },
         lastLocationUpdate := some now }, true)
  | _, _ => (s, false)

/-! ## AQI fetchers (`src/src/index.ts` v4.2.3 `fetchAQIData`,
`src/src/services/airQualityService.ts` `getNearestAQIStation`)

The HTTP layer is external: each fetcher is embedded as the validation
and normalization it applies to an already-parsed provider response
body. -/

/-- The `city` object of a WAQI response body. -/
structure CityInfo where
  name : Option String := none
  geo : Option (ℚ × ℚ) := none
deriving DecidableEq, Repr

/-- The `data` object of a WAQI response body. -/
structure WAQIData where
  aqi : Option JSNum := none
  city : Option CityInfo := none
deriving DecidableEq, Repr

/-- A parsed WAQI response body (`{status, data}`). -/
structure WAQIResponse where
  status : String
  data : Option WAQIData := none
deriving DecidableEq, Repr

/-- JS `x || d` on a possibly-absent string: the empty string is falsy. -/
def strOrDefault (x : Option String) (d : String) : String :=
  match x with
  | some s => if s = "" then d else s
  | none => d

/-- `fetchAQIData` of v4.2.3: throw `Invalid API response` when
`response.data.status !== "ok" || !response.data.data?.aqi` (a truthiness
guard, so an `aqi` of `0` or `NaN` is also rejected); otherwise build the
`AQIStation` with `city?.name || "Nearest Station"` and
`city?.geo || [lat, lon]`. -/
def fetchAQIData (lat lon : ℚ) (resp : WAQIResponse) :
    Except String AQIStation :=
  let aqiField := resp.data.bind fun d => d.aqi
  let cityField := resp.data.bind fun d => d.city
  if resp.status ≠ "ok" ∨ jsTruthy aqiField = false then
    .error "Invalid API response"
  else
    .ok { aqi := aqiField.getD (.num 0),
          name := strOrDefault (cityField.bind fun c => c.name)
            "Nearest Station",
          geo := (cityField.bind fun c => c.geo).getD (lat, lon) }

/-- The station record of the service module (`AQIStationData` of
`types.ts`, with `distance`). -/
structure ServiceStation where
  aqi : JSNum
  name : String
  geo : ℚ × ℚ
  distance : ℚ
deriving DecidableEq, Repr

/-- `typeof x !== 'number'` fails exactly on an absent field (`NaN` is a
number). -/
def typeofNumber : Option JSNum → Bool
  | some _ => true
  | none => false

/-- `getNearestAQIStation` of the service module: throw
`Invalid WAQI API response` when `data.status !== 'ok' ||
typeof data.data?.aqi !== 'number'` — so an `aqi` of exactly `0` is
accepted; normalize `geo` with `Number(geo[i]) || fallback` (a `0`
component falls back to the queried axis) and default the name with
`city?.name || 'Unknown Station'`.  The HTTP `response.ok` check precedes
parsing and is outside this embedding. -/
def getNearestAQIStation (latitude longitude : ℚ) (resp : WAQIResponse) :
    Except String ServiceStation :=
  let aqiField := resp.data.bind fun d => d.aqi
  let cityField := resp.data.bind fun d => d.city
  if resp.status ≠ "ok" ∨ typeofNumber aqiField = false then
    .error "Invalid WAQI API response"
  else
    let geo : ℚ × ℚ :=
      match cityField.bind fun c => c.geo with
      | some (a, b) =>
          (if a = 0 then latitude else a, if b = 0 then longitude else b)
      | none => (latitude, longitude)
    .ok { aqi := aqiField.getD (.num 0),
          name := strOrDefault (cityField.bind fun c => c.name)
            "Unknown Station",
          geo := geo, distance := 0 }

/-- `fetchAQIData` succeeded with an `aqi` of exactly `0`. -/
def okWithAqiZero : Except String AQIStation → Bool
  | .ok st => decide (st.aqi = .num 0)
  | .error _ => false

/-- The v4.2.3 transcription handler's trigger decision: it calls
`handleAirQualityRequest` exactly when the transcription is final and its
text contains the voice command; no per-session gating state exists, so
the decision takes no state argument. -/
def v423TranscriptionTrigger (isFinal recognized : Bool) : Bool :=
  isFinal && recognized

/-! ## Theorems -/

/-- Claim C1, counterexample: the voice-trigger gate has no Cooldown
state.  For no positive window `w` does the part_005 gate absorb a
duplicate recognized utterance arriving within `w` ms of cycle
completion: in the trace (recognized utterance, cycle completion at
100 ms, duplicate recognized utterance at 100 ms — inside any positive
window) the gate starts two cycles, where the claimed
Idle → Processing → Cooldown → Idle machine would start one. -/
theorem c1_no_cooldown_counterexample :
    ¬ ∃ w : ℕ, 0 < w ∧ cooldownAbsorbs w := by
  rintro ⟨w, hw, h⟩
  have h2 := h 100 100 (by omega)
  simp [gateRun, gateStep] at h2

/-- Claim C1, amended: the part_005 gate is a two-state machine.  A
recognized utterance while accepting starts a cycle and blocks further
utterances; recognized utterances while a cycle is in flight are ignored
(not queued); completion (success or failure) returns the gate
immediately to accepting with no cooldown window, so a duplicate
recognized utterance arriving right after completion starts a second
cycle.  The v4.2.3 variant has no gate at all: its trigger decision is a
pure function of the event, firing on every final recognized
utterance. -/
theorem c1_gate_behaviour :
    (∀ t : ℕ, gateStep true (.utterance true t) = (false, true)) ∧
    (∀ (r : Bool) (t : ℕ), gateStep false (.utterance r t) = (false, false)) ∧
    (∀ (a : Bool) (t : ℕ), gateStep a (.complete t) = (true, false)) ∧
    (∀ tDone tU : ℕ,
      (gateRun true [GateEvent.utterance true 0, GateEvent.complete tDone,
        GateEvent.utterance true tU]).2 = 2) ∧
    (∀ isFinal recognized : Bool,
      v423TranscriptionTrigger isFinal recognized = (isFinal && recognized)) := by
  refine ⟨fun t => rfl, fun r t => by cases r <;> rfl, fun a t => rfl,
    fun tDone tU => rfl, fun f r => rfl⟩

/-- Claim C2: the part_003 location resolver catches each tier's failure
locally and always terminates in a result; when the device tier fails
(error, timeout, or invalid data) and the IP tier fails (error, timeout,
or falsy fields), the result is the static London default. -/
theorem c2_resolver_never_raises (device : Except String DeviceLocation)
    (ip : Except String IPResponse) :
    (∃ c, checkAirQualityResolve device ip = Except.ok c) ∧
    (deviceTierFails device → ipTierFails ip →
      checkAirQualityResolve device ip = Except.ok londonFallback) := by
  constructor
  · cases device with
    | error e => exact ⟨getApproximateLocation ip, rfl⟩
    | ok loc =>
        by_cases h : isValidLocation loc
        · exact ⟨(jsVal loc.latitude, jsVal loc.longitude),
            by simp [checkAirQualityResolve, deviceTier, tryCatchE, h]⟩
        · refine ⟨getApproximateLocation ip, ?_⟩
          simp [checkAirQualityResolve, deviceTier, tryCatchE, h]
  · intro hd hip
    have hipLondon : getApproximateLocation ip = londonFallback := by
      cases ip with
      | error e => rfl
      | ok r =>
          simp only [ipTierFails] at hip
          simp [getApproximateLocation, hip]
    cases device with
    | error e => simp [checkAirQualityResolve, deviceTier, tryCatchE, hipLondon]
    | ok loc =>
        simp only [deviceTierFails] at hd
        simp [checkAirQualityResolve, deviceTier, tryCatchE, hd, hipLondon]

/-- Claim C3: the v4.2.3 cache policy.  With a cached reading of age
`now - ts`: at most 2 minutes, the cached station is reused verbatim and
annotated `Same as Ns ago`; over 2 and at most 15 minutes, reused
annotated with its age in minutes; over 15 minutes — or with no cached
reading — a fresh fetch is performed and on success replaces the cached
reading. -/
theorem c3_cache_policy (sd : SessionData) (st : AQIStation) (ts now : ℕ)
    (fetch : Except String AQIStation)
    (hcache : sd.lastAQI = some (st, ts)) (hts : ts ≤ now) :
    (now - ts ≤ 2 * 60 * 1000 →
      handleAirQualityRequest sd now fetch =
        (sd, .shown (s!"Same as {(now - ts) / 1000}s ago") st)) ∧
    (2 * 60 * 1000 < now - ts → now - ts ≤ 15 * 60 * 1000 →
      handleAirQualityRequest sd now fetch =
        (sd, .shown (s!"{(now - ts) / 60000}m old data") st)) ∧
    (15 * 60 * 1000 < now - ts → ∀ st', fetch = .ok st' →
      handleAirQualityRequest sd now fetch =
        ({ sd with lastAQI := some (st', now) },
         .shown "Current air quality" st')) ∧
    (∀ sd2 : SessionData, sd2.lastAQI = none → ∀ st', fetch = .ok st' →
      handleAirQualityRequest sd2 now fetch =
        ({ sd2 with lastAQI := some (st', now) },
         .shown "Current air quality" st')) := by
  refine ⟨fun h1 => ?_, fun h1 h2 => ?_, fun h1 st' hf => ?_,
    fun sd2 h0 st' hf => ?_⟩
  · simp [handleAirQualityRequest, hcache, RECENT_REQUEST_THRESHOLD_MS, h1]
  · have h1n : ¬ (now - ts ≤ RECENT_REQUEST_THRESHOLD_MS) := by
      simp [RECENT_REQUEST_THRESHOLD_MS]; omega
    simp [handleAirQualityRequest, hcache, h1n, AQI_REFRESH_INTERVAL_MS, h2]
  · have h1n : ¬ (now - ts ≤ RECENT_REQUEST_THRESHOLD_MS) := by
      simp [RECENT_REQUEST_THRESHOLD_MS]; omega
    have h2n : ¬ (now - ts ≤ AQI_REFRESH_INTERVAL_MS) := by
      simp [AQI_REFRESH_INTERVAL_MS]; omega
    simp [handleAirQualityRequest, hcache, h1n, h2n, fetchAndStore, hf]
  · simp [handleAirQualityRequest, h0, fetchAndStore, hf]

/-- A concrete station reading for witnesses (the spec's Moderate example,
index 42). -/
def stationEx : AQIStation := { aqi := .num 42, name := "Testville", geo := (1, 2) }

/-- A second concrete station reading for witnesses. -/
def stationEx2 : AQIStation := { aqi := .num 57, name := "Otherville", geo := (3, 4) }

/-- Witness for C3 at the spec's own example: a reading cached at time 0,
requested at 60 s falls in the fresh tier and is reused annotated
`Same as 60s ago`. -/
theorem c3_cache_policy_witness :
    handleAirQualityRequest { userId := "u", lastAQI := some (stationEx, 0) }
        60000 (.ok stationEx2) =
      ({ userId := "u", lastAQI := some (stationEx, 0) },
       .shown "Same as 60s ago" stationEx) :=
  (c3_cache_policy { userId := "u", lastAQI := some (stationEx, 0) }
      stationEx 0 60000 (.ok stationEx2) rfl (by omega)).1 (by omega)

/-- Claim C4: when the cached reading is absent or past the 15-minute
refresh threshold and the fresh fetch fails, v4.2.3 leaves the session
state — including any stale cached reading — exactly as it was and hands
the presenter the `Service unavailable` error instead of the expired
data. -/
theorem c4_failed_fetch_keeps_cache (sd : SessionData) (now : ℕ) (e : String)
    (hexp : sd.lastAQI = none ∨
      ∃ st ts, sd.lastAQI = some (st, ts) ∧ 15 * 60 * 1000 < now - ts) :
    handleAirQualityRequest sd now (.error e) = (sd, .serviceUnavailable) := by
  rcases hexp with h0 | ⟨st, ts, hsome, hage⟩
  · simp [handleAirQualityRequest, h0, fetchAndStore]
  · have h1n : ¬ (now - ts ≤ RECENT_REQUEST_THRESHOLD_MS) := by
      simp [RECENT_REQUEST_THRESHOLD_MS]; omega
    have h2n : ¬ (now - ts ≤ AQI_REFRESH_INTERVAL_MS) := by
      simp [AQI_REFRESH_INTERVAL_MS]; omega
    simp [handleAirQualityRequest, hsome, h1n, h2n, fetchAndStore]

/-- Witness for C4: a reading cached at time 0 and requested 20 minutes
later with a failing fetch — the stale cache survives and the error wall
is shown. -/
theorem c4_failed_fetch_keeps_cache_witness :
    handleAirQualityRequest { userId := "u", lastAQI := some (stationEx, 0) }
        1200000 (.error "timeout") =
      ({ userId := "u", lastAQI := some (stationEx, 0) },
       .serviceUnavailable) :=
  c4_failed_fetch_keeps_cache { userId := "u", lastAQI := some (stationEx, 0) }
    1200000 "timeout" (Or.inr ⟨stationEx, 0, rfl, by omega⟩)

/-- `List.find?` is exactly the spec's first-matching-entry scan. -/
theorem find_eq_firstGE (aqi : ℕ) (table : List AQILevel) :
    table.find? (fun l => aqiLE aqi l.max) = firstGE aqi table := by
  induction table with
  | nil => rfl
  | cons l ls ih =>
      by_cases h : aqiLE aqi l.max
      · simp [List.find?_cons_of_pos, h, firstGE]
      · simp only [Bool.not_eq_true] at h
        simp [List.find?_cons_of_neg, h, firstGE, ih]

/-- Claim C5: `getQualityLevel` returns the first severity entry whose
threshold is at least the index (the last entry when none matches), the
thresholds are 50/100/150/200/300/unbounded, and index 55 is classified
`Moderate`. -/
theorem c5_classify :
    (∀ i : ℕ, getQualityLevel i = classifySpec i AQI_LEVELS) ∧
    AQI_LEVELS.map (fun l => l.max) =
      [some 50, some 100, some 150, some 200, some 300, none] ∧
    (getQualityLevel 55).label = "Moderate" := by
  refine ⟨fun i => ?_, rfl, rfl⟩
  unfold getQualityLevel classifySpec
  rw [find_eq_firstGE]

/-- Claim C6, counterexample: the v4.2.3 `onLocation` validation (also
cited by the claim) only truthiness-checks `lat`/`lng` — it has no range
check — so the push `{lat: 100, lng: 50}`, whose latitude 100 lies
outside [-90, 90], passes validation and is stored, and while fresh it is
exactly the coordinate `getCurrentCoordinates` hands to `fetchAQIData`
for the air-quality lookup (whatever the configured default): an invalid
coordinate is both accepted and used. -/
theorem c6_range_unchecked_counterexample :
    (onLocationV423 { userId := "u" } 0
        { lat := some (.num 100), lng := some (.num 50) }).1.location =
      some { lat := .num 100, lon := .num 50, timestamp := 0 } ∧
    getCurrentCoordinates
        (onLocationV423 { userId := "u" } 0
          { lat := some (.num 100), lng := some (.num 50) }).1
        10000 (0, 0) = (100, 50) ∧
    ¬ ((100 : ℚ) ≤ 90) := by
  refine ⟨by decide, by decide, by norm_num⟩

/-- Claim C6, amended: the part_003 validation rejects every coordinate
in the claim's bad set — an axis out of range, an axis `NaN` or absent,
or the `(0,0)` sentinel — and the part_003 resolver then ignores the
device coordinate entirely, proceeding exactly as if the device tier had
errored, so no such coordinate reaches that variant's lookup.  The
v4.2.3 `onLocation` validation, by contrast, rejects only pushes with a
falsy axis (`0`, `NaN`, absent): any push with truthy axes — in range or
not — is stored, and while fresh the stored pair is precisely the
coordinate handed to the AQI fetch. -/
theorem c6_validator_variants (loc : DeviceLocation) (h : badCoordinate loc) :
    (isValidLocation loc = false ∧
     ∀ ip, checkAirQualityResolve (.ok loc) ip =
      .ok (getApproximateLocation ip)) ∧
    (∀ (sd : SessionData) (now : ℕ) (u : LocationUpdate),
      (jsTruthy u.lat && jsTruthy u.lng) = false →
        onLocationV423 sd now u = (sd, false)) ∧
    (∀ (sd : SessionData) (now tq : ℕ) (u : LocationUpdate)
        (dflt : ℚ × ℚ),
      (jsTruthy u.lat && jsTruthy u.lng) = true →
      tq - now ≤ LOCATION_MAX_AGE_MS →
        getCurrentCoordinates ((onLocationV423 sd now u).1) tq dflt =
          (jsVal u.lat, jsVal u.lng)) := by
  have hv : isValidLocation loc = false := by
    rcases h with ⟨q, hq, hr⟩ | ⟨q, hq, hr⟩ | h | h | h | h | ⟨h1, h2⟩
    · simp only [isValidLocation, hq, jsAbs]
      rw [decide_eq_false (not_le.mpr hr)]
      simp
    · simp only [isValidLocation, hq, jsAbs]
      rw [decide_eq_false (not_le.mpr hr)]
      simp
    · simp [isValidLocation, h, jsTruthy]
    · simp [isValidLocation, h, jsTruthy]
    · simp [isValidLocation, h, jsTruthy]
    · simp [isValidLocation, h, jsTruthy]
    · simp [isValidLocation, h1, h2, jsTruthy]
  refine ⟨⟨hv, fun ip => ?_⟩, fun sd now u hu => ?_, fun sd now tq u dflt hu hfresh => ?_⟩
  · simp [checkAirQualityResolve, deviceTier, tryCatchE, hv]
  · simp [onLocationV423, hu]
  · have hlat : jsTruthy u.lat = true := by
      cases hl : jsTruthy u.lat
      · rw [hl] at hu; simp at hu
      · rfl
    have hlng : jsTruthy u.lng = true := by
      cases hl : jsTruthy u.lng
      · rw [hl] at hu; simp at hu
      · rfl
    have hgetd : (u.lat).getD (.num 0) = .num (jsVal u.lat) ∧
        (u.lng).getD (.num 0) = .num (jsVal u.lng) := by
      constructor
      · match hval : u.lat with
        | none => rw [hval] at hlat; simp [jsTruthy] at hlat
        | some .nan => rw [hval] at hlat; simp [jsTruthy] at hlat
        | some (.num q) => simp [Option.getD, jsVal]
      · match hval : u.lng with
        | none => rw [hval] at hlng; simp [jsTruthy] at hlng
        | some .nan => rw [hval] at hlng; simp [jsTruthy] at hlng
        | some (.num q) => simp [Option.getD, jsVal]
    simp [onLocationV423, hu, getCurrentCoordinates, hfresh, hgetd.1,
      hgetd.2, jsVal]

/-- Witness for C6's amended theorem at the out-of-range latitude 100:
the part_003 validator rejects the coordinate and the resolver ignores
it, while the v4.2.3 conjuncts hold as stated. -/
theorem c6_validator_variants_witness :
    (isValidLocation { latitude := some (.num 100), longitude := some (.num 5) } = false ∧
     ∀ ip, checkAirQualityResolve
        (.ok { latitude := some (.num 100), longitude := some (.num 5) }) ip =
      .ok (getApproximateLocation ip)) ∧
    (∀ (sd : SessionData) (now : ℕ) (u : LocationUpdate),
      (jsTruthy u.lat && jsTruthy u.lng) = false →
        onLocationV423 sd now u = (sd, false)) ∧
    (∀ (sd : SessionData) (now tq : ℕ) (u : LocationUpdate)
        (dflt : ℚ × ℚ),
      (jsTruthy u.lat && jsTruthy u.lng) = true →
      tq - now ≤ LOCATION_MAX_AGE_MS →
        getCurrentCoordinates ((onLocationV423 sd now u).1) tq dflt =
          (jsVal u.lat, jsVal u.lng)) :=
  c6_validator_variants { latitude := some (.num 100), longitude := some (.num 5) }
    (Or.inl ⟨100, rfl, by norm_num⟩)

/-- Claim C7, counterexample: a location push does not merely update the
stored coordinate — in the `src - Copy` variant (cited by the claim) the
`onLocation` handler itself performs an air-quality lookup, so the claim
that a push never starts a lookup cycle is false: pushing
`{lat: 1, lon: 2}` to a fresh session starts one. -/
theorem c7_push_starts_lookup_counterexample :
    ¬ ∀ (s : CopySession) (now : ℕ) (u : LocationUpdate),
      (onLocationCopy s now u).2 = false := by
  intro h
  exact absurd (h {} 0 { lat := some (.num 1), lon := some (.num 2) })
    (by decide)

/-- Claim C7, amended: in the v4.2.3 variant a location push never starts
a lookup and changes nothing but the stored coordinate (with its receipt
time); in the `src - Copy` variant every push whose coordinates resolve
under either key convention both stores the coordinate and itself
performs the air-quality lookup — so there a push arriving during a cycle
does start another cycle. -/
theorem c7_push_effects (sd : SessionData) (now : ℕ) (u : LocationUpdate)
    (s : CopySession) :
    ((onLocationV423 sd now u).2 = false ∧
     ((onLocationV423 sd now u).1).lastAQI = sd.lastAQI ∧
     ((onLocationV423 sd now u).1).userId = sd.userId) ∧
    ((jsTruthy u.lat && jsTruthy u.lng) = true →
      ((onLocationV423 sd now u).1).location =
        some { lat := (u.lat).getD (.num 0), lon := (u.lng).getD (.num 0),
               timestamp := now }) ∧
    (∀ la lo, (u.lat).orElse (fun _ => u.latitude) = some la →
      (u.lon).orElse (fun _ => u.longitude) = some lo →
      onLocationCopy s now u =
        ({ location := some { lat := la, lon := lo, timestamp := now },
           lastLocationUpdate := some now }, true)) := by
  refine ⟨?_, fun htrue => ?_, fun la lo hla hlo => ?_⟩
  · unfold onLocationV423
    by_cases hc : (jsTruthy u.lat && jsTruthy u.lng) = true
    · simp [hc]
    · simp only [Bool.not_eq_true] at hc
      simp [hc]
  · simp [onLocationV423, htrue]
  · simp [onLocationCopy, hla, hlo]

/-- Claim C8, counterexample: the v4.2.3 `onLocation` handler (cited by
the claim) accepts neither of the two key conventions the claim names —
it reads only `lat`/`lng`, so both a `{latitude, longitude}` push and a
`{lat, lon}` push are discarded without storing any coordinate. -/
theorem c8_key_convention_counterexample :
    onLocationV423 { userId := "u" } 5
        { latitude := some (.num 1), longitude := some (.num 2) } =
      ({ userId := "u" }, false) ∧
    onLocationV423 { userId := "u" } 5
        { lat := some (.num 1), lon := some (.num 2) } =
      ({ userId := "u" }, false) := by
  constructor
  · rfl
  · simp [onLocationV423, jsTruthy]

/-- Claim C8, amended: the `src - Copy` handler accepts both conventions
and stores the same session coordinate for either; the v4.2.3 handler
accepts only pushes with truthy `lat` and `lng` keys and discards both a
`{latitude, longitude}` and a `{lat, lon}` push unchanged. -/
theorem c8_key_conventions (a b : ℚ) (now : ℕ) (s : CopySession)
    (sd : SessionData) :
    (onLocationCopy s now
        { latitude := some (.num a), longitude := some (.num b) } =
      onLocationCopy s now { lat := some (.num a), lon := some (.num b) } ∧
     (onLocationCopy s now
        { lat := some (.num a), lon := some (.num b) }).1.location =
      some { lat := .num a, lon := .num b, timestamp := now }) ∧
    (onLocationV423 sd now
        { latitude := some (.num a), longitude := some (.num b) } =
      (sd, false) ∧
     onLocationV423 sd now { lat := some (.num a), lon := some (.num b) } =
      (sd, false)) := by
  refine ⟨⟨rfl, rfl⟩, ⟨rfl, ?_⟩⟩
  simp [onLocationV423, jsTruthy]

/-- Claim C9, counterexample: the `types.ts` severity table (cited by the
claim) does not end in an unbounded threshold — its last entry's
`thresholdMax` is the finite 500. -/
theorem c9_bounded_last_counterexample :
    (lastLevel AQI_LEVELS_types).max = some 500 ∧
    (lastLevel AQI_LEVELS_types).max ≠ none := by
  constructor
  · rfl
  · simp [lastLevel, AQI_LEVELS_types]

/-- Claim C9, amended: both severity tables are sorted strictly ascending
by `thresholdMax`; the `index.ts` table's last entry is unbounded
(`Infinity`), while the `types.ts` table's last entry is the finite 500 —
yet under both tables every index exceeding all thresholds is classified
into the last entry, through the unbounded catch-all in the first table
and through the classifier's explicit last-entry fallback in the
second. -/
theorem c9_tables_sorted_catchall :
    tableSorted AQI_LEVELS = true ∧
    tableSorted AQI_LEVELS_types = true ∧
    (lastLevel AQI_LEVELS).max = none ∧
    (lastLevel AQI_LEVELS_types).max = some 500 ∧
    (∀ i : ℕ, 300 < i → getQualityLevel i = lastLevel AQI_LEVELS) ∧
    (∀ i : ℕ, 500 < i → getQualityLevelTypes i = lastLevel AQI_LEVELS_types) := by
  refine ⟨rfl, rfl, rfl, rfl, fun i hi => ?_, fun i hi => ?_⟩
  · have h50 : aqiLE i (some 50) = false := by simp [aqiLE]; omega
    have h100 : aqiLE i (some 100) = false := by simp [aqiLE]; omega
    have h150 : aqiLE i (some 150) = false := by simp [aqiLE]; omega
    have h200 : aqiLE i (some 200) = false := by simp [aqiLE]; omega
    have h300 : aqiLE i (some 300) = false := by simp [aqiLE]; omega
    have htop : aqiLE i none = true := rfl
    unfold getQualityLevel
    rw [find_eq_firstGE]
    simp [firstGE, AQI_LEVELS, h50, h100, h150, h200, h300, htop, lastLevel]
  · have h50 : aqiLE i (some 50) = false := by simp [aqiLE]; omega
    have h100 : aqiLE i (some 100) = false := by simp [aqiLE]; omega
    have h150 : aqiLE i (some 150) = false := by simp [aqiLE]; omega
    have h200 : aqiLE i (some 200) = false := by simp [aqiLE]; omega
    have h300 : aqiLE i (some 300) = false := by simp [aqiLE]; omega
    have h500 : aqiLE i (some 500) = false := by simp [aqiLE]; omega
    unfold getQualityLevelTypes
    rw [find_eq_firstGE]
    simp [firstGE, AQI_LEVELS_types, h50, h100, h150, h200, h300, h500,
      lastLevel]

/-- Witness for C9's universally quantified conjuncts at index 501
(greater than every finite threshold of both tables). -/
theorem c9_tables_sorted_catchall_witness :
    getQualityLevel 501 = lastLevel AQI_LEVELS ∧
    getQualityLevelTypes 501 = lastLevel AQI_LEVELS_types :=
  ⟨(c9_tables_sorted_catchall.2.2.2.2.1) 501 (by omega),
   (c9_tables_sorted_catchall.2.2.2.2.2) 501 (by omega)⟩

/-- A truthy JS number is neither absent, `NaN`, nor `0`. -/
theorem jsTruthy_getD_ne_zero (o : Option JSNum) (h : jsTruthy o = true) :
    o.getD (.num 0) ≠ .num 0 := by
  match o with
  | none => simp [jsTruthy] at h
  | some .nan => simp [jsTruthy] at h
  | some (.num q) =>
      simp only [jsTruthy, decide_eq_true_eq] at h
      simpa [Option.getD] using h

/-- The concrete provider response with `status: "ok"` and `aqi: 0` on
which the two fetchers disagree. -/
def respAqiZero : WAQIResponse :=
  { status := "ok",
    data := some { aqi := some (.num 0),
                   city := some { name := some "Testville",
                                  geo := some (1, 2) } } }

/-- Claim C10: the v4.2.3 `fetchAQIData` never yields a reading with
index 0 — its truthiness guard rejects every such response — and on the
concrete `aqi: 0` response it throws `Invalid API response`, while the
service module's `getNearestAQIStation` accepts the same response with
index 0: the two fetchers disagree on this input. -/
theorem c10_zero_index_disagreement :
    (∀ (resp : WAQIResponse) (la lo : ℚ),
      okWithAqiZero (fetchAQIData la lo resp) = false) ∧
    fetchAQIData 1 2 respAqiZero = .error "Invalid API response" ∧
    getNearestAQIStation 1 2 respAqiZero =
      .ok { aqi := .num 0, name := "Testville", geo := (1, 2),
            distance := 0 } := by
  refine ⟨fun resp la lo => ?_, rfl, rfl⟩
  unfold fetchAQIData
  by_cases hc : resp.status ≠ "ok" ∨
      jsTruthy (resp.data.bind fun d => d.aqi) = false
  · rw [if_pos hc]
    rfl
  · rw [if_neg hc]
    push_neg at hc
    have ht : jsTruthy (resp.data.bind fun d => d.aqi) = true := by
      cases hb : jsTruthy (resp.data.bind fun d => d.aqi) with
      | false => exact absurd hb hc.2
      | true => rfl
    simp [okWithAqiZero, jsTruthy_getD_ne_zero _ ht]
